import Mathlib

/-!
Verification of the warehouse producer/consumer simulation (dual-lane
bounded buffer in C). The state of the program's global variables is
embedded as a Lean structure and each C function touching that state is
translated to a pure state-passing function. Machine `int` values are
modelled as `Int` where the value matters (items) and as `Nat` for the
cursors and counters, which the program keeps non-negative.
-/

/-- `#define BUFFER_SIZE 10` -/
def BUFFER_SIZE : Nat := 10

/-- `#define LOW_STOCK_THRESHOLD 1` -/
def LOW_STOCK_THRESHOLD : Nat := 1

/-- `#define HIGH_STOCK_THRESHOLD 9` -/
def HIGH_STOCK_THRESHOLD : Nat := 9

/-- Pointwise update of a buffer array, as C's `buffer[i] = v`. -/
def bufUpdate (f : Nat → Int) (i : Nat) (v : Int) : Nat → Int :=
  fun j => if j = i then v else f j

/-- The store's global variables: the normal lane (`buffer`, `in`, `out`,
with `in`/`out` rendered `inC`/`outC` since `in` is reserved in Lean) and
the urgent lane (`urgent_buffer`, `urgent_in`, `urgent_out`,
`urgent_count`). -/
structure Store where
  buffer : Nat → Int
  inC : Nat
  outC : Nat
  urgent_buffer : Nat → Int
  urgent_in : Nat
  urgent_out : Nat
  urgent_count : Nat

/-- The zero-initialized globals at program start. -/
def Store.init : Store :=
  { buffer := fun _ => 0, inC := 0, outC := 0,
    urgent_buffer := fun _ => 0, urgent_in := 0, urgent_out := 0,
    urgent_count := 0 }

/-- `add_product(item, priority)` from the source. The returned `Bool` is
`true` exactly when the function took the `log_error("Buffer overflow")`
branch and returned without writing. The overflow test in the source is
`(in + 1) % BUFFER_SIZE == out`, performed before the priority dispatch. -/
def add_product (item : Int) (priority : Bool) (s : Store) : Store × Bool :=
  if (s.inC + 1) % BUFFER_SIZE = s.outC then
    (s, true)
  else if priority then
    ({ s with urgent_buffer := bufUpdate s.urgent_buffer s.urgent_in item,
              urgent_in := (s.urgent_in + 1) % BUFFER_SIZE,
              urgent_count := s.urgent_count + 1 }, false)
  else
    ({ s with buffer := bufUpdate s.buffer s.inC item,
              inC := (s.inC + 1) % BUFFER_SIZE }, false)

/-- `extract_product()` from the source: returns the sentinel `-1` and
leaves the state alone on underflow (`in == out && urgent_count == 0`);
otherwise drains the urgent lane first, then the normal lane. -/
def extract_product (s : Store) : Int × Store :=
  if s.inC = s.outC ∧ s.urgent_count = 0 then
    (-1, s)
  else if 0 < s.urgent_count then
    (s.urgent_buffer s.urgent_out,
     { s with urgent_out := (s.urgent_out + 1) % BUFFER_SIZE,
              urgent_count := s.urgent_count - 1 })
  else
    (s.buffer s.outC, { s with outC := (s.outC + 1) % BUFFER_SIZE })

/-- The normal lane's occupancy as the program derives it:
`(in - out + BUFFER_SIZE) % BUFFER_SIZE`. -/
def normCount (s : Store) : Nat :=
  (s.inC + BUFFER_SIZE - s.outC) % BUFFER_SIZE

/-- A store whose normal lane is full in the cursor-difference sense:
`(in + 1) % BUFFER_SIZE == out` holds (9 normal items), urgent lane empty. -/
def fullNormalStore : Store :=
  { buffer := fun _ => 0, inC := 9, outC := 0,
    urgent_buffer := fun _ => 0, urgent_in := 0, urgent_out := 0,
    urgent_count := 0 }

/-- The three stock levels reported by the alert logic. `NORMAL` is the
no-alert case (total strictly between the two thresholds). -/
inductive StockLevel
  | LOW
  | NORMAL
  | HIGH
deriving DecidableEq, Repr

/-- The classification branch structure shared by `stock_alert`
(`part_000`) and `refresh_screen` (`new.c`): LOW when
`total_stock <= LOW_STOCK_THRESHOLD`, else HIGH when
`total_stock >= HIGH_STOCK_THRESHOLD`, else no alert (NORMAL). -/
def classify (normal_count urgent_count : Nat) : StockLevel :=
  if normal_count + urgent_count ≤ LOW_STOCK_THRESHOLD then .LOW
  else if HIGH_STOCK_THRESHOLD ≤ normal_count + urgent_count then .HIGH
  else .NORMAL

/-- `stock_alert()` from the source: recomputes the normal count from the
cursors as `(in - out + BUFFER_SIZE) % BUFFER_SIZE` and classifies the
total stock. -/
def stock_alert (s : Store) : StockLevel :=
  classify (normCount s) s.urgent_count

/-- The remaining global variables: the gate's two semaphore values
(`empty` rendered `freeSlots`, `full` rendered `filledSlots`), the two
statistics counters, the remaining-work counter `simulation_count` and
the running flag `simulation_running`. -/
structure SimState where
  store : Store
  freeSlots : Nat
  filledSlots : Nat
  total_produced : Nat
  total_consumed : Nat
  simulation_count : Nat
  simulation_running : Bool

/-- The globals at program start, with `simulation_count` read from the
operator. `sem_init(&empty, 0, BUFFER_SIZE)` and `sem_init(&full, 0, 0)`. -/
def SimState.start (count : Nat) : SimState :=
  { store := Store.init, freeSlots := BUFFER_SIZE, filledSlots := 0,
    total_produced := 0, total_consumed := 0, simulation_count := count,
    simulation_running := true }

/-- The locked section of one `supplier` iteration in `new.c`, entered
after `sem_wait(&empty)` has consumed a free-slot token: `add_product`,
then unconditionally `update_statistics(1, 0)`, then `sem_post(&full)`. -/
def supplier_body (item : Int) (priority : Bool) (st : SimState) : SimState :=
  { st with store := (add_product item priority st.store).1,
            total_produced := st.total_produced + 1,
            filledSlots := st.filledSlots + 1 }

/-- The locked section of one `retailer` iteration in `new.c`, entered
after the running check decremented `simulation_count` and
`sem_wait(&full)` consumed a filled-slot token: if the store is empty the
token is returned via `sem_post(&full)` and the thread retries; otherwise
`extract_product` runs, and on the (unreachable after the emptiness
check) sentinel `-1` the token is likewise returned, else
`update_statistics(0, 1)` and `sem_post(&empty)`. -/
def retailer_body (st : SimState) : SimState :=
  if st.store.inC = st.store.outC ∧ st.store.urgent_count = 0 then
    { st with filledSlots := st.filledSlots + 1 }
  else
    let r := extract_product st.store
    if r.1 = -1 then
      { st with store := r.2, filledSlots := st.filledSlots + 1 }
    else
      { st with store := r.2,
                total_consumed := st.total_consumed + 1,
                freeSlots := st.freeSlots + 1 }

/-- A supplier iteration caught at the failing input for C3: the normal
lane is already full, the producer has just taken the last free-slot
token and inserts a normal item. -/
def overflowSim : SimState :=
  { store := fullNormalStore, freeSlots := 0, filledSlots := 9,
    total_produced := 9, total_consumed := 0, simulation_count := 5,
    simulation_running := true }

/-- The mutex-protected section of `sigint_handler`: `simulation_count = 0`. -/
def zero_counter (st : SimState) : SimState :=
  { st with simulation_count := 0 }

/-- `sigint_handler` in `new.c` as a state transformer: clear the running
flag, zero the remaining-work counter under the lock, then
`sem_post(&empty)` once per producer thread and `sem_post(&full)` once
per consumer thread. -/
def sigint_handler (nProd nCons : Nat) (st : SimState) : SimState :=
  let st1 := zero_counter { st with simulation_running := false }
  { st1 with freeSlots := st1.freeSlots + nProd,
             filledSlots := st1.filledSlots + nCons }

/-- The validation loop in `main` of `new.c`,
`while (scanf("%d", &x) != 1 || x <= 0) { reprompt; clear; }`, over the
stream of input attempts: skip every attempt that is non-numeric or
non-positive, and accept the first strictly positive integer, returning
it with the rest of the stream; `none` when the stream runs dry. -/
def scan_positive : List (Option Int) → Option (Int × List (Option Int))
  | [] => none
  | t :: rest =>
    match t with
    | some n => if 0 < n then some (n, rest) else scan_positive rest
    | none => scan_positive rest

/-- The three reads in `main` of `new.c`: supplier count, retailer count,
work bound, each through the validation loop. -/
def read_config (ts : List (Option Int)) :
    Option ((Int × Int × Int) × List (Option Int)) :=
  match scan_positive ts with
  | none => none
  | some (a, ts1) =>
    match scan_positive ts1 with
    | none => none
    | some (b, ts2) =>
      match scan_positive ts2 with
      | none => none
      | some (c, ts3) => some ((a, b, c), ts3)

/-- The urgent lane's contents as a list, oldest first: `urgent_count`
entries starting at the head cursor `urgent_out`. -/
def urgentLane (s : Store) : List Int :=
  (List.range s.urgent_count).map
    (fun k => s.urgent_buffer ((s.urgent_out + k) % BUFFER_SIZE))

/-- The normal lane's contents as a list, oldest first: `normCount s`
entries starting at the head cursor `out`. -/
def normalLane (s : Store) : List Int :=
  (List.range (normCount s)).map
    (fun k => s.buffer ((s.outC + k) % BUFFER_SIZE))

/-- A sequence of `add_product` calls, one per (item, priority) pair. -/
def insert_list (ps : List (Int × Bool)) (s : Store) : Store :=
  ps.foldl (fun t p => (add_product p.1 p.2 t).1) s

/-- `n` successive `extract_product` calls, collecting the returned items. -/
def extract_n : Nat → Store → List Int × Store
  | 0, s => ([], s)
  | n + 1, s =>
    let r := extract_product s
    let rest := extract_n n r.2
    (r.1 :: rest.1, rest.2)

/-- One gate-mediated store operation: a producer inserting an item with
a priority tag, or a consumer extracting. -/
inductive GateOp where
  | insert (item : Int) (priority : Bool)
  | extract

/-- One protocol-respecting step. An insert fires only when the running
check passes and a free-slot token is available (`sem_wait(&empty)`); an
extract fires only when the running check passes (decrementing the work
counter) and a filled-slot token is available (`sem_wait(&full)`). The
locked sections are exactly `supplier_body` and `retailer_body`. -/
def gate_step (st : SimState) : GateOp → Option SimState
  | .insert item priority =>
    if st.simulation_count = 0 ∨ st.freeSlots = 0 then none
    else some (supplier_body item priority
      { st with freeSlots := st.freeSlots - 1 })
  | .extract =>
    if st.simulation_count = 0 ∨ st.filledSlots = 0 then none
    else some (retailer_body
      { st with simulation_count := st.simulation_count - 1,
                filledSlots := st.filledSlots - 1 })

/-- Run a list of gate operations from a state. -/
def gate_run (st : SimState) : List GateOp → Option SimState
  | [] => some st
  | op :: ops =>
    match gate_step st op with
    | none => none
    | some st' => gate_run st' ops

/-- The inductive invariant of the gate protocol: the cursors stay below
capacity, the two token counts sum to the capacity, and the total
occupancy is covered by the filled-slot tokens. -/
def GateInv (st : SimState) : Prop :=
  st.store.inC < BUFFER_SIZE ∧ st.store.outC < BUFFER_SIZE ∧
  st.freeSlots + st.filledSlots = BUFFER_SIZE ∧
  normCount st.store + st.store.urgent_count ≤ st.filledSlots

/-- The state after the three-operation demonstration run used to witness
C6: insert an urgent 3, insert a normal 7, extract once (serving the
urgent item). -/
def demoFinal : SimState :=
  { store := { buffer := bufUpdate (fun _ => 0) 0 7, inC := 1, outC := 0,
               urgent_buffer := bufUpdate (fun _ => 0) 0 3, urgent_in := 1,
               urgent_out := 1, urgent_count := 0 },
    freeSlots := 9, filledSlots := 1, total_produced := 2,
    total_consumed := 1, simulation_count := 4, simulation_running := true }

/-- C1: `extract_product` serves the urgent lane's head whenever the
urgent lane is non-empty (advancing `urgent_out` and decrementing
`urgent_count`), and otherwise, when the normal lane is non-empty, serves
the normal lane's head (advancing `out`); in particular when both lanes
are non-empty the returned item is the urgent head. -/
theorem extract_urgent_first (s : Store) :
    (0 < s.urgent_count →
      extract_product s =
        (s.urgent_buffer s.urgent_out,
         { s with urgent_out := (s.urgent_out + 1) % BUFFER_SIZE,
                  urgent_count := s.urgent_count - 1 })) ∧
    (s.urgent_count = 0 → s.inC ≠ s.outC →
      extract_product s =
        (s.buffer s.outC, { s with outC := (s.outC + 1) % BUFFER_SIZE })) := by
  constructor
  · intro hu
    unfold extract_product
    rw [if_neg, if_pos hu]
    rintro ⟨-, h0⟩
    omega
  · intro hu hne
    unfold extract_product
    rw [if_neg, if_neg]
    · omega
    · rintro ⟨h1, -⟩
      exact hne h1

/-- Witness for C1 at a concrete store holding one urgent and one normal
item: the urgent head is returned. -/
theorem extract_urgent_first_witness :
    extract_product
      { buffer := bufUpdate (fun _ => 0) 0 5, inC := 1, outC := 0,
        urgent_buffer := bufUpdate (fun _ => 0) 0 42, urgent_in := 1,
        urgent_out := 0, urgent_count := 1 } =
      (42,
       { buffer := bufUpdate (fun _ => 0) 0 5, inC := 1, outC := 0,
         urgent_buffer := bufUpdate (fun _ => 0) 0 42, urgent_in := 1,
         urgent_out := 1, urgent_count := 0 }) := by
  have h := (extract_urgent_first
    { buffer := bufUpdate (fun _ => 0) 0 5, inC := 1, outC := 0,
      urgent_buffer := bufUpdate (fun _ => 0) 0 42, urgent_in := 1,
      urgent_out := 0, urgent_count := 1 }).1 (by decide)
  simpa [bufUpdate, BUFFER_SIZE] using h

/-! ### Branch lemmas for `add_product` and `extract_product` -/

theorem add_product_of_overflow (item : Int) (p : Bool) (s : Store)
    (h : (s.inC + 1) % BUFFER_SIZE = s.outC) : add_product item p s = (s, true) := by
  unfold add_product
  rw [if_pos h]

theorem add_product_urgent_eq (item : Int) (s : Store)
    (h : (s.inC + 1) % BUFFER_SIZE ≠ s.outC) :
    add_product item true s =
      ({ s with urgent_buffer := bufUpdate s.urgent_buffer s.urgent_in item,
                urgent_in := (s.urgent_in + 1) % BUFFER_SIZE,
                urgent_count := s.urgent_count + 1 }, false) := by
  unfold add_product
  rw [if_neg h]
  rfl

theorem add_product_normal_eq (item : Int) (s : Store)
    (h : (s.inC + 1) % BUFFER_SIZE ≠ s.outC) :
    add_product item false s =
      ({ s with buffer := bufUpdate s.buffer s.inC item,
                inC := (s.inC + 1) % BUFFER_SIZE }, false) := by
  unfold add_product
  rw [if_neg h]
  rfl

theorem extract_product_empty (s : Store) (h1 : s.inC = s.outC)
    (h2 : s.urgent_count = 0) : extract_product s = (-1, s) := by
  unfold extract_product
  rw [if_pos ⟨h1, h2⟩]

theorem extract_product_urgent (s : Store) (h : 0 < s.urgent_count) :
    extract_product s =
      (s.urgent_buffer s.urgent_out,
       { s with urgent_out := (s.urgent_out + 1) % BUFFER_SIZE,
                urgent_count := s.urgent_count - 1 }) := by
  unfold extract_product
  rw [if_neg (by rintro ⟨-, h0⟩; omega), if_pos h]

theorem extract_product_normal (s : Store) (h2 : s.urgent_count = 0)
    (h1 : s.inC ≠ s.outC) :
    extract_product s =
      (s.buffer s.outC, { s with outC := (s.outC + 1) % BUFFER_SIZE }) := by
  unfold extract_product
  rw [if_neg (by rintro ⟨ha, -⟩; exact h1 ha), if_neg (by omega)]

/-- C10: frame property of the two lane operations. An urgent insert never
touches the normal lane's buffer or its `in`/`out` cursors; a normal
insert never touches the urgent lane's buffer, cursors or count; an
extract served from the urgent lane leaves the normal lane alone, and an
extract while the urgent lane is empty leaves the urgent lane alone. -/
theorem lane_frame (item : Int) (s : Store) :
    ((add_product item true s).1.buffer = s.buffer ∧
     (add_product item true s).1.inC = s.inC ∧
     (add_product item true s).1.outC = s.outC) ∧
    ((add_product item false s).1.urgent_buffer = s.urgent_buffer ∧
     (add_product item false s).1.urgent_in = s.urgent_in ∧
     (add_product item false s).1.urgent_out = s.urgent_out ∧
     (add_product item false s).1.urgent_count = s.urgent_count) ∧
    (0 < s.urgent_count →
      ((extract_product s).2.buffer = s.buffer ∧
       (extract_product s).2.inC = s.inC ∧
       (extract_product s).2.outC = s.outC)) ∧
    (s.urgent_count = 0 →
      ((extract_product s).2.urgent_buffer = s.urgent_buffer ∧
       (extract_product s).2.urgent_in = s.urgent_in ∧
       (extract_product s).2.urgent_out = s.urgent_out ∧
       (extract_product s).2.urgent_count = s.urgent_count)) := by
  refine ⟨?_, ?_, ?_, ?_⟩
  · by_cases h : (s.inC + 1) % BUFFER_SIZE = s.outC
    · rw [add_product_of_overflow item true s h]
      exact ⟨rfl, rfl, rfl⟩
    · rw [add_product_urgent_eq item s h]
      exact ⟨rfl, rfl, rfl⟩
  · by_cases h : (s.inC + 1) % BUFFER_SIZE = s.outC
    · rw [add_product_of_overflow item false s h]
      exact ⟨rfl, rfl, rfl, rfl⟩
    · rw [add_product_normal_eq item s h]
      exact ⟨rfl, rfl, rfl, rfl⟩
  · intro hu
    rw [extract_product_urgent s hu]
    exact ⟨rfl, rfl, rfl⟩
  · intro hu
    by_cases h : s.inC = s.outC
    · rw [extract_product_empty s h hu]
      exact ⟨rfl, rfl, rfl, rfl⟩
    · rw [extract_product_normal s hu h]
      exact ⟨rfl, rfl, rfl, rfl⟩

/-- Witness for C10: at the zero-initialized store (urgent lane empty),
an extract leaves the urgent lane's fields unchanged. -/
theorem lane_frame_witness :
    (extract_product Store.init).2.urgent_buffer = Store.init.urgent_buffer ∧
    (extract_product Store.init).2.urgent_in = Store.init.urgent_in ∧
    (extract_product Store.init).2.urgent_out = Store.init.urgent_out ∧
    (extract_product Store.init).2.urgent_count = Store.init.urgent_count :=
  (lane_frame 0 Store.init).2.2.2 rfl

/-- C2: evaluation of the code at the failing input. With the normal lane
full and the urgent lane empty (plainly having room), an insert carrying
the urgent priority tag nevertheless takes the `Buffer overflow` branch
and is dropped: the overflow test reads the normal lane's cursors
regardless of which lane the priority tag selects, contradicting the
claim that insert fails exactly when the *selected* lane has no room. -/
theorem add_product_wrong_lane_check :
    (add_product 5 true fullNormalStore).2 = true ∧
    fullNormalStore.urgent_count = 0 ∧
    (add_product 5 true fullNormalStore).1 = fullNormalStore :=
  ⟨rfl, rfl, rfl⟩

/-! ### Stock classification (`stock_alert` / `refresh_screen`) -/

/-- C5: the stock classification is the pure threshold function of the
two occupancy counts — total ≤ 1 gives LOW, total ≥ 9 gives HIGH,
anything strictly between gives NORMAL — and `stock_alert` is exactly
this function applied to the derived occupancies; totals 1, 9 and 5
classify as LOW, HIGH and NORMAL respectively. -/
theorem classify_thresholds (n u : Nat) :
    (n + u ≤ 1 → classify n u = .LOW) ∧
    (9 ≤ n + u → classify n u = .HIGH) ∧
    (1 < n + u → n + u < 9 → classify n u = .NORMAL) ∧
    (∀ s : Store, stock_alert s = classify (normCount s) s.urgent_count) ∧
    classify 1 0 = .LOW ∧ classify 9 0 = .HIGH ∧ classify 5 0 = .NORMAL := by
  refine ⟨?_, ?_, ?_, fun _ => rfl, by decide, by decide, by decide⟩
  · intro h
    unfold classify LOW_STOCK_THRESHOLD
    rw [if_pos h]
  · intro h
    unfold classify LOW_STOCK_THRESHOLD HIGH_STOCK_THRESHOLD
    rw [if_neg (by omega), if_pos h]
  · intro h1 h2
    unfold classify LOW_STOCK_THRESHOLD HIGH_STOCK_THRESHOLD
    rw [if_neg (by omega), if_neg (by omega)]

/-- Witness for C5: a store with 5 normal items and 0 urgent items
classifies as NORMAL. -/
theorem classify_thresholds_witness :
    classify 5 0 = StockLevel.NORMAL :=
  (classify_thresholds 5 0).2.2.1 (by decide) (by decide)

/-! ### The worker-thread bodies and the lifecycle state -/

/-- C3: evaluation of the code at the failing input. The insert fails
with Overflow (the store is unchanged, the item is dropped), yet the
supplier iteration still increments `total_produced`: the statistics
update in `supplier` is unconditional, contradicting the claim that
dropped items are not counted. -/
theorem supplier_counts_dropped_item :
    (add_product 5 false overflowSim.store).2 = true ∧
    (supplier_body 5 false overflowSim).store = overflowSim.store ∧
    (supplier_body 5 false overflowSim).total_produced =
      overflowSim.total_produced + 1 :=
  ⟨rfl, rfl, rfl⟩

/-! ### Shutdown path (`sigint_handler` in `new.c`) -/

/-- C8: the shutdown path zeroes the remaining-work counter (and the
zeroing, taken alone, is idempotent — running it twice equals running it
once), clears the running flag, and posts exactly `NUM_PRODUCERS`
free-slot tokens and exactly `NUM_CONSUMERS` filled-slot tokens on top of
whatever the semaphores held. -/
theorem sigint_handler_spec (nProd nCons : Nat) (st : SimState) :
    (sigint_handler nProd nCons st).simulation_count = 0 ∧
    zero_counter (zero_counter st) = zero_counter st ∧
    (sigint_handler nProd nCons st).simulation_running = false ∧
    (sigint_handler nProd nCons st).freeSlots = st.freeSlots + nProd ∧
    (sigint_handler nProd nCons st).filledSlots = st.filledSlots + nCons ∧
    (sigint_handler nProd nCons st).store = st.store :=
  ⟨rfl, rfl, rfl, rfl, rfl, rfl⟩

/-! ### Underflow and the consumer's empty-store path -/

/-- C7: `extract_product` is a no-op returning the `-1` sentinel exactly
when both lanes are empty (`in == out` and `urgent_count == 0`); and a
retailer that finds the store empty after acquiring a filled-slot token
extracts nothing, changes no store state, leaves `total_consumed` and the
free-slot count alone, and returns the just-acquired filled-slot token. -/
theorem underflow_and_empty_retry :
    (∀ s : Store,
      extract_product s = (-1, s) ↔ (s.inC = s.outC ∧ s.urgent_count = 0)) ∧
    (∀ st : SimState, st.store.inC = st.store.outC →
      st.store.urgent_count = 0 →
      retailer_body st = { st with filledSlots := st.filledSlots + 1 }) := by
  constructor
  · intro s
    constructor
    · intro h
      by_contra hc
      rcases Decidable.not_and_iff_or_not.mp hc with h1 | h2
      · rcases Nat.eq_zero_or_pos s.urgent_count with hz | hp
        · rw [extract_product_normal s hz h1] at h
          have : ((s.outC + 1) % BUFFER_SIZE) = s.outC := by
            have := congrArg (fun p => p.2.outC) h
            simpa using this
          unfold BUFFER_SIZE at this
          omega
        · rw [extract_product_urgent s hp] at h
          have : s.urgent_count - 1 = s.urgent_count := by
            have := congrArg (fun p => p.2.urgent_count) h
            simpa using this
          omega
      · have hp : 0 < s.urgent_count := Nat.pos_of_ne_zero h2
        rw [extract_product_urgent s hp] at h
        have : s.urgent_count - 1 = s.urgent_count := by
          have := congrArg (fun p => p.2.urgent_count) h
          simpa using this
        omega
    · rintro ⟨h1, h2⟩
      exact extract_product_empty s h1 h2
  · intro st h1 h2
    unfold retailer_body
    rw [if_pos ⟨h1, h2⟩]

/-- Witness for C7: a retailer that took a filled-slot token but finds
the zero-initialized store empty returns the token and changes nothing
else. -/
theorem underflow_and_empty_retry_witness :
    retailer_body
      { store := Store.init, freeSlots := 9, filledSlots := 0,
        total_produced := 1, total_consumed := 0, simulation_count := 4,
        simulation_running := true } =
      { store := Store.init, freeSlots := 9, filledSlots := 1,
        total_produced := 1, total_consumed := 0, simulation_count := 4,
        simulation_running := true } :=
  underflow_and_empty_retry.2
    { store := Store.init, freeSlots := 9, filledSlots := 0,
      total_produced := 1, total_consumed := 0, simulation_count := 4,
      simulation_running := true } rfl rfl

/-! ### Startup configuration (`main` in `new.c`) -/

theorem scan_positive_accepts :
    ∀ (ts : List (Option Int)) (n : Int) (rest : List (Option Int)),
      scan_positive ts = some (n, rest) →
      0 < n ∧ ∃ pre, ts = pre ++ some n :: rest ∧
        ∀ t ∈ pre, t = none ∨ ∃ m, t = some m ∧ m ≤ 0 := by
  intro ts
  induction ts with
  | nil => intro n rest h; simp [scan_positive] at h
  | cons t ts ih =>
    intro n rest h
    match t with
    | none =>
      obtain ⟨hn, pre, hpre, hall⟩ := ih n rest h
      exact ⟨hn, none :: pre, by simp [hpre], by
        intro t ht
        rcases List.mem_cons.mp ht with h1 | h2
        · exact Or.inl h1
        · exact hall t h2⟩
    | some m =>
      by_cases hm : 0 < m
      · rw [scan_positive, if_pos hm] at h
        obtain ⟨rfl, rfl⟩ : m = n ∧ ts = rest := by simpa using h
        exact ⟨hm, [], by simp, by simp⟩
      · rw [scan_positive, if_neg hm] at h
        obtain ⟨hn, pre, hpre, hall⟩ := ih n rest h
        exact ⟨hn, some m :: pre, by simp [hpre], by
          intro t ht
          rcases List.mem_cons.mp ht with h1 | h2
          · exact Or.inr ⟨m, h1, by omega⟩
          · exact hall t h2⟩

/-- C9: the startup configuration accepts only strictly positive
integers. Every value the three-read sequence returns is positive, and
the validation loop accepts a value only after skipping a (possibly
empty) prefix of attempts each of which was non-numeric or non-positive
— rejected attempts are re-prompted, never silently defaulted. -/
theorem read_config_positive :
    (∀ (ts : List (Option Int)) (a b c : Int) (rest : List (Option Int)),
      read_config ts = some ((a, b, c), rest) → 0 < a ∧ 0 < b ∧ 0 < c) ∧
    (∀ (ts : List (Option Int)) (n : Int) (rest : List (Option Int)),
      scan_positive ts = some (n, rest) →
      0 < n ∧ ∃ pre, ts = pre ++ some n :: rest ∧
        ∀ t ∈ pre, t = none ∨ ∃ m, t = some m ∧ m ≤ 0) := by
  constructor
  · intro ts a b c rest h
    rcases ha : scan_positive ts with - | ⟨a', ts1⟩
    · simp [read_config, ha] at h
    rcases hb : scan_positive ts1 with - | ⟨b', ts2⟩
    · simp [read_config, ha, hb] at h
    rcases hc : scan_positive ts2 with - | ⟨c', ts3⟩
    · simp [read_config, ha, hb, hc] at h
    obtain ⟨⟨h1, h2, h3⟩, -⟩ :
        (a' = a ∧ b' = b ∧ c' = c) ∧ ts3 = rest := by
      simpa [read_config, ha, hb, hc] using h
    exact ⟨h1 ▸ (scan_positive_accepts ts a' ts1 ha).1,
           h2 ▸ (scan_positive_accepts ts1 b' ts2 hb).1,
           h3 ▸ (scan_positive_accepts ts2 c' ts3 hc).1⟩
  · exact scan_positive_accepts

/-- Witness for C9: the stream holding a non-numeric token, `-3`, `0`,
and then the three values 2, 4, 6 yields the accepted positive triple
(2, 4, 6). -/
theorem read_config_positive_witness :
    (0 : Int) < 2 ∧ (0 : Int) < 4 ∧ (0 : Int) < 6 :=
  read_config_positive.1
    [none, some (-3), some 2, some 0, some 4, some 6] 2 4 6 [] (by decide)

/-! ### FIFO order within each lane -/

theorem urgentLane_add (item : Int) (s : Store)
    (_h1 : s.urgent_out < BUFFER_SIZE) (h2 : s.urgent_count < BUFFER_SIZE)
    (h3 : s.urgent_in = (s.urgent_out + s.urgent_count) % BUFFER_SIZE)
    (hov : (s.inC + 1) % BUFFER_SIZE ≠ s.outC) :
    urgentLane (add_product item true s).1 = urgentLane s ++ [item] := by
  rw [add_product_urgent_eq item s hov]
  unfold urgentLane bufUpdate
  dsimp only
  rw [List.range_succ, List.map_append]
  congr 1
  · apply List.map_congr_left
    intro k hk
    have hk' : k < s.urgent_count := List.mem_range.mp hk
    have h' : ¬ ((s.urgent_out + k) % BUFFER_SIZE = s.urgent_in) := by
      rw [h3]
      simp only [BUFFER_SIZE] at *
      omega
    rw [if_neg h']
  · simp only [List.map_cons, List.map_nil]
    rw [if_pos h3.symm]

theorem normalLane_add (item : Int) (s : Store)
    (h1 : s.inC < BUFFER_SIZE) (h2 : s.outC < BUFFER_SIZE)
    (hov : (s.inC + 1) % BUFFER_SIZE ≠ s.outC) :
    normalLane (add_product item false s).1 = normalLane s ++ [item] := by
  rw [add_product_normal_eq item s hov]
  unfold normalLane normCount bufUpdate
  dsimp only
  have hd : ((s.inC + 1) % BUFFER_SIZE + BUFFER_SIZE - s.outC) % BUFFER_SIZE
      = (s.inC + BUFFER_SIZE - s.outC) % BUFFER_SIZE + 1 := by
    simp only [BUFFER_SIZE] at *
    omega
  rw [hd, List.range_succ, List.map_append]
  congr 1
  · apply List.map_congr_left
    intro k hk
    have hk' : k < (s.inC + BUFFER_SIZE - s.outC) % BUFFER_SIZE :=
      List.mem_range.mp hk
    have h' : ¬ ((s.outC + k) % BUFFER_SIZE = s.inC) := by
      simp only [BUFFER_SIZE] at *
      omega
    rw [if_neg h']
  · simp only [List.map_cons, List.map_nil]
    have h' : (s.outC + (s.inC + BUFFER_SIZE - s.outC) % BUFFER_SIZE)
        % BUFFER_SIZE = s.inC := by
      simp only [BUFFER_SIZE] at *
      omega
    rw [if_pos h']

theorem urgentLane_extract (s : Store) (hc : 0 < s.urgent_count)
    (h1 : s.urgent_out < BUFFER_SIZE) :
    urgentLane s = (extract_product s).1 :: urgentLane (extract_product s).2 := by
  rw [extract_product_urgent s hc]
  unfold urgentLane
  dsimp only
  obtain ⟨c, hc'⟩ : ∃ c, s.urgent_count = c + 1 := ⟨s.urgent_count - 1, by omega⟩
  rw [hc']
  simp only [Nat.add_sub_cancel]
  rw [List.range_succ_eq_map]
  simp only [List.map_cons, List.map_map]
  congr 1
  · congr 1
    simp [Nat.mod_eq_of_lt h1]
  · apply List.map_congr_left
    intro k hk
    simp only [Function.comp]
    congr 1
    simp only [BUFFER_SIZE]
    omega

theorem normalLane_extract (s : Store) (hu : s.urgent_count = 0)
    (hne : s.inC ≠ s.outC) (h1 : s.inC < BUFFER_SIZE)
    (h2 : s.outC < BUFFER_SIZE) :
    normalLane s = (extract_product s).1 :: normalLane (extract_product s).2 := by
  rw [extract_product_normal s hu hne]
  unfold normalLane normCount
  dsimp only
  have hd : (s.inC + BUFFER_SIZE - s.outC) % BUFFER_SIZE
      = (s.inC + BUFFER_SIZE - (s.outC + 1) % BUFFER_SIZE) % BUFFER_SIZE + 1 := by
    simp only [BUFFER_SIZE] at *
    omega
  rw [hd, List.range_succ_eq_map]
  simp only [List.map_cons, List.map_map]
  congr 1
  · congr 1
    simp [Nat.mod_eq_of_lt h2]
  · apply List.map_congr_left
    intro k hk
    simp only [Function.comp]
    congr 1
    simp only [BUFFER_SIZE]
    omega

/-- C4: FIFO within each lane. Inserting into a lane appends the item to
that lane's content list; extracting removes that lane's oldest item
first — so within a single lane items leave in arrival order. In
particular (Scenario B), inserting 3 urgent items then 2 normal items
into the empty store and extracting three times yields exactly the 3
urgent items in insertion order. -/
theorem fifo_per_lane :
    (∀ (item : Int) (s : Store), s.urgent_out < BUFFER_SIZE →
      s.urgent_count < BUFFER_SIZE →
      s.urgent_in = (s.urgent_out + s.urgent_count) % BUFFER_SIZE →
      (s.inC + 1) % BUFFER_SIZE ≠ s.outC →
      urgentLane (add_product item true s).1 = urgentLane s ++ [item]) ∧
    (∀ (item : Int) (s : Store), s.inC < BUFFER_SIZE → s.outC < BUFFER_SIZE →
      (s.inC + 1) % BUFFER_SIZE ≠ s.outC →
      normalLane (add_product item false s).1 = normalLane s ++ [item]) ∧
    (∀ s : Store, 0 < s.urgent_count → s.urgent_out < BUFFER_SIZE →
      urgentLane s = (extract_product s).1 :: urgentLane (extract_product s).2) ∧
    (∀ s : Store, s.urgent_count = 0 → s.inC ≠ s.outC →
      s.inC < BUFFER_SIZE → s.outC < BUFFER_SIZE →
      normalLane s = (extract_product s).1 :: normalLane (extract_product s).2) ∧
    (∀ a b c d e : Int,
      (extract_n 3 (insert_list
        [(a, true), (b, true), (c, true), (d, false), (e, false)]
        Store.init)).1 = [a, b, c]) := by
  refine ⟨urgentLane_add, normalLane_add, urgentLane_extract,
    normalLane_extract, ?_⟩
  intro a b c d e
  simp [insert_list, extract_n, add_product, extract_product, bufUpdate,
    Store.init, BUFFER_SIZE]

/-- Witness for C4: inserting an urgent item into the empty store appends
it to the urgent lane's content list. -/
theorem fifo_per_lane_witness :
    urgentLane (add_product 42 true Store.init).1 =
      urgentLane Store.init ++ [42] :=
  fifo_per_lane.1 42 Store.init (by decide) (by decide) (by decide) (by decide)

/-! ### The gate protocol and the occupancy invariant -/

theorem gate_step_inv (st st' : SimState) (op : GateOp)
    (hinv : GateInv st) (h : gate_step st op = some st') : GateInv st' := by
  obtain ⟨hin, hout, hsum, hocc⟩ := hinv
  cases op with
  | insert item priority =>
    simp only [gate_step] at h
    by_cases hg : st.simulation_count = 0 ∨ st.freeSlots = 0
    · rw [if_pos hg] at h
      exact absurd h (by simp)
    rw [if_neg hg] at h
    push_neg at hg
    obtain ⟨-, hfree⟩ := hg
    obtain rfl : supplier_body item priority
        { st with freeSlots := st.freeSlots - 1 } = st' := by simpa using h
    unfold supplier_body GateInv
    dsimp only
    by_cases hov : (st.store.inC + 1) % BUFFER_SIZE = st.store.outC
    · rw [add_product_of_overflow item priority st.store hov]
      dsimp only
      refine ⟨hin, hout, by omega, by omega⟩
    · cases priority with
      | true =>
        rw [add_product_urgent_eq item st.store hov]
        dsimp only
        unfold normCount at *
        dsimp only
        refine ⟨hin, hout, by omega, by omega⟩
      | false =>
        rw [add_product_normal_eq item st.store hov]
        dsimp only
        unfold normCount at *
        dsimp only
        simp only [BUFFER_SIZE] at *
        refine ⟨by omega, hout, by omega, by omega⟩
  | extract =>
    simp only [gate_step] at h
    by_cases hg : st.simulation_count = 0 ∨ st.filledSlots = 0
    · rw [if_pos hg] at h
      exact absurd h (by simp)
    rw [if_neg hg] at h
    push_neg at hg
    obtain ⟨-, hfill⟩ := hg
    obtain rfl : retailer_body
        { st with simulation_count := st.simulation_count - 1,
                  filledSlots := st.filledSlots - 1 } = st' := by simpa using h
    unfold retailer_body
    dsimp only
    by_cases hemp : st.store.inC = st.store.outC ∧ st.store.urgent_count = 0
    · rw [if_pos hemp]
      unfold GateInv normCount at *
      dsimp only
      simp only [BUFFER_SIZE] at *
      omega
    · rw [if_neg hemp]
      by_cases hu : 0 < st.store.urgent_count
      · rw [extract_product_urgent st.store hu]
        dsimp only
        by_cases hneg : st.store.urgent_buffer st.store.urgent_out = -1
        · rw [if_pos hneg]
          unfold GateInv normCount at *
          dsimp only
          simp only [BUFFER_SIZE] at *
          omega
        · rw [if_neg hneg]
          unfold GateInv normCount at *
          dsimp only
          simp only [BUFFER_SIZE] at *
          omega
      · have hz : st.store.urgent_count = 0 := by omega
        have hne : st.store.inC ≠ st.store.outC := fun he => hemp ⟨he, hz⟩
        rw [extract_product_normal st.store hz hne]
        dsimp only
        by_cases hneg : st.store.buffer st.store.outC = -1
        · rw [if_pos hneg]
          unfold GateInv normCount at *
          dsimp only
          simp only [BUFFER_SIZE] at *
          omega
        · rw [if_neg hneg]
          unfold GateInv normCount at *
          dsimp only
          simp only [BUFFER_SIZE] at *
          omega

theorem gate_run_inv (ops : List GateOp) :
    ∀ (st st' : SimState), GateInv st → gate_run st ops = some st' →
      GateInv st' := by
  induction ops with
  | nil =>
    intro st st' hinv h
    obtain rfl : st = st' := by simpa [gate_run] using h
    exact hinv
  | cons op ops ih =>
    intro st st' hinv h
    unfold gate_run at h
    rcases hstep : gate_step st op with - | st1
    · rw [hstep] at h
      exact absurd h (by simp)
    · rw [hstep] at h
      exact ih st1 st' (gate_step_inv st st1 op hinv hstep) h

theorem gate_inv_start (count : Nat) : GateInv (SimState.start count) := by
  unfold GateInv SimState.start Store.init normCount
  dsimp only
  decide

/-- C6: along every gate-protocol-respecting run from the initial state
(capacity 10 free-slot tokens, no filled-slot tokens), each lane's
occupancy stays within capacity: the normal lane's cursor-difference
occupancy stays in `[0, BUFFER_SIZE - 1]` and the urgent lane's explicit
count never exceeds `BUFFER_SIZE` (both are `Nat`, so neither can go
negative). -/
theorem gate_occupancy_bounds (count : Nat) (ops : List GateOp)
    (st : SimState) (h : gate_run (SimState.start count) ops = some st) :
    normCount st.store ≤ BUFFER_SIZE - 1 ∧
    st.store.urgent_count ≤ BUFFER_SIZE := by
  obtain ⟨-, -, hsum, hocc⟩ :=
    gate_run_inv ops (SimState.start count) st (gate_inv_start count) h
  unfold normCount at *
  simp only [BUFFER_SIZE] at *
  omega

/-- Witness for C6: the demonstration run reaches `demoFinal`, whose lane
occupancies are within the claimed bounds. -/
theorem gate_occupancy_bounds_witness :
    normCount demoFinal.store ≤ BUFFER_SIZE - 1 ∧
    demoFinal.store.urgent_count ≤ BUFFER_SIZE :=
  gate_occupancy_bounds 5
    [GateOp.insert 3 true, GateOp.insert 7 false, GateOp.extract]
    demoFinal
    (by simp [gate_run, gate_step, supplier_body, retailer_body,
      add_product, extract_product, SimState.start, Store.init, bufUpdate,
      BUFFER_SIZE, demoFinal])
